import Mathlib

/-!
Shallow embedding of the `cypher_character_model` Rust crate
(`src/cypher_character_model/src/lib.rs`), together with theorems settling
the specification claims about it.

Modelling conventions:
- Rust `u8` fields and parameters are embedded as `ℕ`; where the source's
  `u8` arithmetic can wrap (the cost computation in `spend_effort`), each
  operation is wrapped modulo 256 via `wrap8`, matching Rust's two's
  complement wrap-around semantics for overflowing unsigned arithmetic
  (the semantics of a release build; a debug build panics instead at the
  first wrapping operation).
- `eyre::Result<()>` is embedded as `Except SpendEffortError Unit`; each
  `eyre::bail!` site becomes a structured error variant carrying exactly
  the numeric values interpolated into the source's message string.
- The Rust method takes `&mut self`; the embedding takes the state and
  returns the pair of the result and the final state.
-/

/-- The tier of a character, from 1 to 6 (`enum Tier`). -/
inductive Tier
  | One
  | Two
  | Three
  | Four
  | Five
  | Six
deriving DecidableEq

/-- The categorization of pools (`enum EffortType`). -/
inductive EffortType
  | Might
  | Speed
  | Intellect
deriving DecidableEq

/-- The level of damage a character has experienced (`enum DamageTrack`). -/
inductive DamageTrack
  | Hale
  | Impaired
  | Debilitated
deriving DecidableEq

/-- A collection of skill points and skill edge (`struct Pool`), all `u8`. -/
structure Pool where
  current : ℕ
  max : ℕ
  edge : ℕ
deriving DecidableEq

/-- Construct a new pool with the maximum current number of points
(`Pool::new`). -/
def Pool.new (max edge : ℕ) : Pool :=
  { current := max, max := max, edge := edge }

/-- The recovery actions a character has taken in a day
(`struct RecoveryRolls`). -/
structure RecoveryRolls where
  one_action : Bool
  ten_minutes : Bool
  one_hour : Bool
  ten_hours : Bool
deriving DecidableEq

/-- `Default for RecoveryRolls` (derived in the source): all flags false. -/
def RecoveryRolls.mkDefault : RecoveryRolls :=
  { one_action := false, ten_minutes := false, one_hour := false,
    ten_hours := false }

/-- Character progression flags (`struct Advancement`). -/
structure Advancement where
  increase_capabilities : Bool
  move_toward_perfection : Bool
  extra_effort : Bool
  skill_training : Bool
  other : Bool
deriving DecidableEq

/-- `Default for Advancement` (derived in the source): all flags false. -/
def Advancement.mkDefault : Advancement :=
  { increase_capabilities := false, move_toward_perfection := false,
    extra_effort := false, skill_training := false, other := false }

/-- The specific data about a character at a point in time
(`struct CharacterStats`); `effort` and `xp` are `u8` in the source. -/
structure CharacterStats where
  tier : Tier
  effort : ℕ
  xp : ℕ
  might : Pool
  speed : Pool
  intellect : Pool
  recovery_rolls : RecoveryRolls
  damage_track : DamageTrack
  advancement : Advancement
deriving DecidableEq

/-- `CharacterStats::new`: construct a new, Level 1 character. -/
def CharacterStats.new (might_pool might_edge speed_pool speed_edge
    intellect_pool intellect_edge : ℕ) : CharacterStats :=
  { tier := Tier.One
    effort := 1
    xp := 0
    might := Pool.new might_pool might_edge
    speed := Pool.new speed_pool speed_edge
    intellect := Pool.new intellect_pool intellect_edge
    recovery_rolls := RecoveryRolls.mkDefault
    damage_track := DamageTrack.Hale
    advancement := Advancement.mkDefault }

/-- The pool targeted by an effort type: the `match effort_type` dispatch in
`spend_effort` (lines 180-184 of the source). -/
def CharacterStats.pool (s : CharacterStats) : EffortType → Pool
  | EffortType.Might => s.might
  | EffortType.Speed => s.speed
  | EffortType.Intellect => s.intellect

/-- Replace the `current` value of the pool selected by an effort type,
leaving every other field alone: this is the single mutation
`pool.current -= points_to_spend` performed through the `&mut` reference. -/
def CharacterStats.setPoolCurrent (s : CharacterStats) :
    EffortType → ℕ → CharacterStats
  | EffortType.Might, c => { s with might := { s.might with current := c } }
  | EffortType.Speed, c => { s with speed := { s.speed with current := c } }
  | EffortType.Intellect, c =>
      { s with intellect := { s.intellect with current := c } }

/-- Wrap an integer into the `u8` range: the value a `u8` arithmetic
operation leaves in the register when it overflows or underflows
(two's complement wrap-around, i.e. the residue modulo 256). -/
def wrap8 (n : ℤ) : ℕ :=
  (n % 256).toNat

/-- The `u8` value of `points_to_spend` computed by lines 191-194 of the
source, one `wrap8` per `u8` operation, in the source's evaluation order:
`let mut points_to_spend = 3 + (effort_level - 1) * 2 - edge;` followed by
`points_to_spend += effort_level` when the damage track is not `Hale`. -/
def points_to_spend (damage_track : DamageTrack) (effort_level edge : ℕ) : ℕ :=
  let t1 := wrap8 ((effort_level : ℤ) - 1)
  let t2 := wrap8 ((t1 : ℤ) * 2)
  let t3 := wrap8 (3 + (t2 : ℤ))
  let t4 := wrap8 ((t3 : ℤ) - (edge : ℤ))
  if damage_track = DamageTrack.Hale then t4
  else wrap8 ((t4 : ℤ) + (effort_level : ℤ))

/-- The cost formula as the specification states it, over unbounded
integers: `3 + (effort_level - 1) * 2 - edge_used`, plus `effort_level`
when the damage track is not Hale. Kept separate from `points_to_spend`
(the source's `u8` computation) so the two can be compared. -/
def spec_cost (damage_track : DamageTrack) (effort_level edge : ℕ) : ℤ :=
  3 + ((effort_level : ℤ) - 1) * 2 - (edge : ℤ) +
    (if damage_track = DamageTrack.Hale then 0 else (effort_level : ℤ))

/-- The structured content of the four `eyre::bail!` failures of
`spend_effort`, each variant carrying the values interpolated into the
source's message. -/
inductive SpendEffortError
  | ZeroEffort
  | EffortExceeded (max requested : ℕ)
  | EdgeExceeded (max requested : ℕ)
  | PoolExhausted (effort_type : EffortType) (max requested : ℕ)
deriving DecidableEq

/-- `CharacterStats::spend_effort` (lines 165-201 of the source): the guard
chain (zero effort, effort budget, edge budget, pool exhaustion) followed by
the single mutation of the targeted pool's `current`. Returns the result
together with the state left behind by the `&mut self` method. -/
def CharacterStats.spend_effort (s : CharacterStats) (effort_type : EffortType)
    (effort_level edge : ℕ) : Except SpendEffortError Unit × CharacterStats :=
  if effort_level = 0 then
    (Except.error SpendEffortError.ZeroEffort, s)
  else if s.effort < effort_level then
    (Except.error (SpendEffortError.EffortExceeded s.effort effort_level), s)
  else if (s.pool effort_type).edge < edge then
    (Except.error
      (SpendEffortError.EdgeExceeded (s.pool effort_type).edge edge), s)
  else if (s.pool effort_type).current ≤
      points_to_spend s.damage_track effort_level edge then
    (Except.error
      (SpendEffortError.PoolExhausted effort_type (s.pool effort_type).current
        (points_to_spend s.damage_track effort_level edge)), s)
  else
    (Except.ok (),
      s.setPoolCurrent effort_type
        ((s.pool effort_type).current -
          points_to_spend s.damage_track effort_level edge))

/-- The high-level description of a character (`struct Sentence`). -/
structure Sentence where
  descriptor : String
  character_type : String
  flavor : Option String
  focus : String

/-- The `Display` implementation for `Sentence` (lines 101-114):
`"{} {}{} who {}"` with the flavor segment `" ({f})"` when flavor is set
and the empty string otherwise. -/
def Sentence.toString (s : Sentence) : String :=
  s.descriptor ++ " " ++ s.character_type ++
    (match s.flavor with
      | some f => " (" ++ f ++ ")"
      | none => "") ++
    " who " ++ s.focus

/-- The entry point of the data model (`struct Character`). -/
structure Character where
  name : String
  pronouns : String
  sentence : Sentence

/-- The `Display` implementation for `Character` (lines 60-68):
`"{} ({}) is a {}"` over name, pronouns and the sentence's rendering. -/
def Character.toString (c : Character) : String :=
  c.name ++ " (" ++ c.pronouns ++ ") is a " ++ c.sentence.toString

instance : DecidableEq (Except SpendEffortError Unit) := fun a b =>
  match a, b with
  | Except.error x, Except.error y =>
      match decEq x y with
      | isTrue h => isTrue (congrArg Except.error h)
      | isFalse h => isFalse (fun hh => h (by injection hh))
  | Except.ok x, Except.ok y =>
      match decEq x y with
      | isTrue h => isTrue (congrArg Except.ok h)
      | isFalse h => isFalse (fun hh => h (by injection hh))
  | Except.error _, Except.ok _ => isFalse (fun hh => Except.noConfusion hh)
  | Except.ok _, Except.error _ => isFalse (fun hh => Except.noConfusion hh)

/-- Casting `wrap8` back to the integers gives the residue modulo 256. -/
theorem wrap8_cast (a : ℤ) : ((wrap8 a : ℕ) : ℤ) = a % 256 := by
  unfold wrap8
  exact Int.toNat_of_nonneg (Int.emod_nonneg a (by norm_num))

/-- The per-operation `u8` wrapping of the source's cost computation
collapses to the residue of the exact integer cost modulo 256. -/
theorem points_to_spend_cast (d : DamageTrack) (el e : ℕ) :
    ((points_to_spend d el e : ℕ) : ℤ) = spec_cost d el e % 256 := by
  unfold points_to_spend spec_cost
  by_cases hd : d = DamageTrack.Hale <;>
    simp only [hd, if_true, if_false, wrap8_cast, reduceIte] <;>
    omega

/-- When the exact integer cost lies in the `u8` range, the source's
wrapped computation returns it unchanged. -/
theorem points_to_spend_of_nonneg (d : DamageTrack) (el e : ℕ)
    (h0 : 0 ≤ spec_cost d el e) (h1 : spec_cost d el e < 256) :
    ((points_to_spend d el e : ℕ) : ℤ) = spec_cost d el e := by
  rw [points_to_spend_cast, Int.emod_eq_of_lt h0 h1]

/-- C5: for every engine state, every effort type, and every edge value,
`spend_effort` with `effort_level = 0` fails with the zero-effort error and
leaves the state untouched, regardless of pools, edges, effort budget, or
damage track. -/
theorem spend_effort_zero_effort (s : CharacterStats) (et : EffortType)
    (e : ℕ) :
    s.spend_effort et 0 e = (Except.error SpendEffortError.ZeroEffort, s) := by
  simp [CharacterStats.spend_effort]

/-- C6: whenever `effort_level` exceeds the engine's effort budget, the call
fails with the effort-exceeded error carrying `max = effort` and
`requested = effort_level`, and the state is unchanged, regardless of the
edge and pool checks. -/
theorem spend_effort_effort_exceeded (s : CharacterStats) (et : EffortType)
    (el e : ℕ) (h : s.effort < el) :
    s.spend_effort et el e =
      (Except.error (SpendEffortError.EffortExceeded s.effort el), s) := by
  have hel : ¬ el = 0 := by omega
  simp [CharacterStats.spend_effort, hel, h]

theorem spend_effort_effort_exceeded_witness :
    (CharacterStats.new 5 1 5 0 5 0).effort < 2 ∧
      (CharacterStats.new 5 1 5 0 5 0).spend_effort EffortType.Might 2 0 =
        (Except.error (SpendEffortError.EffortExceeded 1 2),
          CharacterStats.new 5 1 5 0 5 0) :=
  ⟨by decide,
    spend_effort_effort_exceeded (CharacterStats.new 5 1 5 0 5 0)
      EffortType.Might 2 0 (by decide)⟩

/-- C7: with `effort_level ≥ 1` and within the effort budget, a requested
edge exceeding the targeted pool's edge fails with the edge-exceeded error
carrying `max = pool.edge` and `requested = edge`, state unchanged. -/
theorem spend_effort_edge_exceeded (s : CharacterStats) (et : EffortType)
    (el e : ℕ) (h1 : 1 ≤ el) (h2 : el ≤ s.effort)
    (h3 : (s.pool et).edge < e) :
    s.spend_effort et el e =
      (Except.error (SpendEffortError.EdgeExceeded (s.pool et).edge e), s) := by
  have hel : ¬ el = 0 := by omega
  simp [CharacterStats.spend_effort, hel, Nat.not_lt.mpr h2, h3]

theorem spend_effort_edge_exceeded_witness :
    (1 ≤ 1 ∧ 1 ≤ (CharacterStats.new 5 1 5 0 5 0).effort ∧
        ((CharacterStats.new 5 1 5 0 5 0).pool EffortType.Might).edge < 2) ∧
      (CharacterStats.new 5 1 5 0 5 0).spend_effort EffortType.Might 1 2 =
        (Except.error (SpendEffortError.EdgeExceeded 1 2),
          CharacterStats.new 5 1 5 0 5 0) :=
  ⟨⟨by decide, by decide, by decide⟩,
    spend_effort_edge_exceeded (CharacterStats.new 5 1 5 0 5 0)
      EffortType.Might 1 2 (by decide) (by decide) (by decide)⟩

/-- C8: `CharacterStats.new` returns exactly the record with each pool's
current equal to its max equal to the supplied pool value and the supplied
edge, tier One, effort 1, xp 0, damage track Hale, and all recovery and
advancement flags false, for all supplied values — nothing is rejected or
altered. -/
theorem characterStats_new_spec (mp me sp se ip ie : ℕ) :
    CharacterStats.new mp me sp se ip ie =
      { tier := Tier.One
        effort := 1
        xp := 0
        might := { current := mp, max := mp, edge := me }
        speed := { current := sp, max := sp, edge := se }
        intellect := { current := ip, max := ip, edge := ie }
        recovery_rolls :=
          { one_action := false, ten_minutes := false, one_hour := false,
            ten_hours := false }
        damage_track := DamageTrack.Hale
        advancement :=
          { increase_capabilities := false, move_toward_perfection := false,
            extra_effort := false, skill_training := false,
            other := false } } :=
  rfl

/-- C9: a sentence renders as descriptor, space, type, the parenthesized
flavor exactly when present, then " who " and the focus; a character
renders as name, " (", pronouns, ") is a ", then the sentence rendering;
and the Ferris example renders to the exact expected string. -/
theorem rendering_spec :
    (∀ d t f fo : String,
        Sentence.toString
            { descriptor := d, character_type := t, flavor := some f,
              focus := fo } =
          d ++ " " ++ t ++ (" (" ++ f ++ ")") ++ " who " ++ fo) ∧
    (∀ d t fo : String,
        Sentence.toString
            { descriptor := d, character_type := t, flavor := none,
              focus := fo } =
          d ++ " " ++ t ++ " who " ++ fo) ∧
    (∀ c : Character,
        c.toString =
          c.name ++ " (" ++ c.pronouns ++ ") is a " ++ c.sentence.toString) ∧
    Character.toString
        { name := "Ferris", pronouns := "any",
          sentence :=
            { descriptor := "Fast", character_type := "Explorer",
              flavor := some "Technology",
              focus := "Helps Their Friends" } } =
      "Ferris (any) is a Fast Explorer (Technology) who Helps Their Friends" := by
  refine ⟨fun d t f fo => rfl, fun d t fo => ?_, fun c => rfl, rfl⟩
  simp [Sentence.toString]

/-- C3 (amended): once the zero-effort, effort-budget and edge checks pass,
the call fails exactly when the `u8`-computed cost (`points_to_spend`, the
cost formula evaluated in 8-bit wrapping arithmetic) is `≥` the targeted
pool's current — so reducing the pool to exactly zero is rejected — and on
that failure the error carries `max = pool.current` and `requested` equal
to the computed cost, with the state unchanged. -/
theorem spend_effort_pool_exhausted_iff (s : CharacterStats)
    (et : EffortType) (el e : ℕ) (h1 : el ≠ 0) (h2 : el ≤ s.effort)
    (h3 : e ≤ (s.pool et).edge) :
    ((s.spend_effort et el e).1 ≠ Except.ok () ↔
        (s.pool et).current ≤ points_to_spend s.damage_track el e) ∧
      ((s.pool et).current ≤ points_to_spend s.damage_track el e →
        s.spend_effort et el e =
          (Except.error
            (SpendEffortError.PoolExhausted et (s.pool et).current
              (points_to_spend s.damage_track el e)), s)) := by
  simp only [CharacterStats.spend_effort, if_neg h1,
    if_neg (Nat.not_lt.mpr h2), if_neg (Nat.not_lt.mpr h3)]
  by_cases hc :
      (s.pool et).current ≤ points_to_spend s.damage_track el e <;>
    simp [hc]

theorem spend_effort_pool_exhausted_iff_witness :
    (2 ≠ 0 ∧ 2 ≤ 2 ∧ 0 ≤ 1) ∧
      ((({ CharacterStats.new 4 1 5 0 5 0 with
              effort := 2 } : CharacterStats).spend_effort
            EffortType.Might 2 0).1 ≠ Except.ok () ↔
        4 ≤ 5) ∧
      (4 ≤ 5 →
        ({ CharacterStats.new 4 1 5 0 5 0 with
              effort := 2 } : CharacterStats).spend_effort
            EffortType.Might 2 0 =
          (Except.error
            (SpendEffortError.PoolExhausted EffortType.Might 4 5),
            { CharacterStats.new 4 1 5 0 5 0 with effort := 2 })) :=
  ⟨⟨by decide, by decide, by decide⟩,
    spend_effort_pool_exhausted_iff
      { CharacterStats.new 4 1 5 0 5 0 with effort := 2 }
      EffortType.Might 2 0 (by decide) (by decide) (by decide)⟩

/-- C3 counterexample to the claim as stated with the cost read as the
exact integer of the formula: with pools `(10, edge 5)`, effort budget 1,
Hale, the call `spend_effort(Might, 1, 5)` passes the zero-effort,
effort-budget and edge checks and has integer cost `3 + 0 - 5 = -2`, which
is `< current = 10`, yet the call fails (the `u8` subtraction wraps to
254). -/
theorem spend_effort_pool_exhausted_int_cex :
    ((1 : ℕ) ≠ 0 ∧
        1 ≤ (CharacterStats.new 10 5 10 0 10 0).effort ∧
        5 ≤ ((CharacterStats.new 10 5 10 0 10 0).pool EffortType.Might).edge ∧
        spec_cost (CharacterStats.new 10 5 10 0 10 0).damage_track 1 5 <
          (((CharacterStats.new 10 5 10 0 10 0).pool
              EffortType.Might).current : ℤ)) ∧
      ((CharacterStats.new 10 5 10 0 10 0).spend_effort
          EffortType.Might 1 5).1 ≠ Except.ok () := by
  decide

/-- C4: every failing call leaves the whole `CharacterStats` exactly as it
was — no field (pools, tier, effort, xp, recovery rolls, damage track,
advancement) is mutated on any error path. -/
theorem spend_effort_error_preserves_state (s : CharacterStats)
    (et : EffortType) (el e : ℕ)
    (h : (s.spend_effort et el e).1 ≠ Except.ok ()) :
    (s.spend_effort et el e).2 = s := by
  unfold CharacterStats.spend_effort at h ⊢
  split_ifs at h ⊢ <;> simp_all

theorem spend_effort_error_preserves_state_witness :
    ((CharacterStats.new 5 1 5 0 5 0).spend_effort
        EffortType.Might 0 0).1 ≠ Except.ok () ∧
      ((CharacterStats.new 5 1 5 0 5 0).spend_effort
          EffortType.Might 0 0).2 = CharacterStats.new 5 1 5 0 5 0 :=
  ⟨by decide,
    spend_effort_error_preserves_state (CharacterStats.new 5 1 5 0 5 0)
      EffortType.Might 0 0 (by decide)⟩

/-- C10: a successful call changes only the `current` value of the pool
selected by the effort type: that pool's `max` and `edge`, the other two
pools in their entirety, and the tier, effort, xp, recovery rolls, damage
track and advancement fields are all unchanged. -/
theorem spend_effort_success_frame (s : CharacterStats) (et : EffortType)
    (el e : ℕ) (h : (s.spend_effort et el e).1 = Except.ok ()) :
    (((s.spend_effort et el e).2.pool et).max = (s.pool et).max ∧
        ((s.spend_effort et el e).2.pool et).edge = (s.pool et).edge) ∧
      (∀ et2 : EffortType, et2 ≠ et →
        (s.spend_effort et el e).2.pool et2 = s.pool et2) ∧
      (s.spend_effort et el e).2.tier = s.tier ∧
      (s.spend_effort et el e).2.effort = s.effort ∧
      (s.spend_effort et el e).2.xp = s.xp ∧
      (s.spend_effort et el e).2.recovery_rolls = s.recovery_rolls ∧
      (s.spend_effort et el e).2.damage_track = s.damage_track ∧
      (s.spend_effort et el e).2.advancement = s.advancement := by
  unfold CharacterStats.spend_effort at h ⊢
  split_ifs at h ⊢
  refine ⟨?_, fun et2 h2 => ?_, ?_, ?_, ?_, ?_, ?_, ?_⟩
  · cases et <;> simp [CharacterStats.setPoolCurrent, CharacterStats.pool]
  · cases et <;> cases et2 <;>
      simp_all [CharacterStats.setPoolCurrent, CharacterStats.pool]
  all_goals
    cases et <;> simp [CharacterStats.setPoolCurrent, CharacterStats.pool]

theorem spend_effort_success_frame_witness :
    ((CharacterStats.new 10 1 5 0 5 0).spend_effort
        EffortType.Might 1 1).1 = Except.ok () ∧
      ((((CharacterStats.new 10 1 5 0 5 0).spend_effort
              EffortType.Might 1 1).2.pool EffortType.Might).max =
          ((CharacterStats.new 10 1 5 0 5 0).pool EffortType.Might).max ∧
        (((CharacterStats.new 10 1 5 0 5 0).spend_effort
              EffortType.Might 1 1).2.pool EffortType.Might).edge =
          ((CharacterStats.new 10 1 5 0 5 0).pool EffortType.Might).edge) ∧
      (∀ et2 : EffortType, et2 ≠ EffortType.Might →
        ((CharacterStats.new 10 1 5 0 5 0).spend_effort
            EffortType.Might 1 1).2.pool et2 =
          (CharacterStats.new 10 1 5 0 5 0).pool et2) ∧
      ((CharacterStats.new 10 1 5 0 5 0).spend_effort
          EffortType.Might 1 1).2.tier =
        (CharacterStats.new 10 1 5 0 5 0).tier ∧
      ((CharacterStats.new 10 1 5 0 5 0).spend_effort
          EffortType.Might 1 1).2.effort =
        (CharacterStats.new 10 1 5 0 5 0).effort ∧
      ((CharacterStats.new 10 1 5 0 5 0).spend_effort
          EffortType.Might 1 1).2.xp =
        (CharacterStats.new 10 1 5 0 5 0).xp ∧
      ((CharacterStats.new 10 1 5 0 5 0).spend_effort
          EffortType.Might 1 1).2.recovery_rolls =
        (CharacterStats.new 10 1 5 0 5 0).recovery_rolls ∧
      ((CharacterStats.new 10 1 5 0 5 0).spend_effort
          EffortType.Might 1 1).2.damage_track =
        (CharacterStats.new 10 1 5 0 5 0).damage_track ∧
      ((CharacterStats.new 10 1 5 0 5 0).spend_effort
          EffortType.Might 1 1).2.advancement =
        (CharacterStats.new 10 1 5 0 5 0).advancement :=
  ⟨by decide,
    spend_effort_success_frame (CharacterStats.new 10 1 5 0 5 0)
      EffortType.Might 1 1 (by decide)⟩

/-- C1 (amended): for every state with the targeted pool's current in `u8`
range and every call with `effort_level ≥ 1`, `effort_level ≤ effort`,
`edge ≤ pool.edge`, and a non-negative cost
`3 + (effort_level-1)*2 - edge (+ effort_level when not Hale)` that is
strictly below the pool's current, the call succeeds and the pool's
current drops by exactly the cost. -/
theorem spend_effort_success_nonneg_cost (s : CharacterStats)
    (et : EffortType) (el e : ℕ) (h1 : 1 ≤ el) (h2 : el ≤ s.effort)
    (h3 : e ≤ (s.pool et).edge)
    (h4 : 0 ≤ spec_cost s.damage_track el e)
    (h5 : spec_cost s.damage_track el e < ((s.pool et).current : ℤ))
    (h6 : (s.pool et).current ≤ 255) :
    (s.spend_effort et el e).1 = Except.ok () ∧
      (((s.spend_effort et el e).2.pool et).current : ℤ) =
        ((s.pool et).current : ℤ) - spec_cost s.damage_track el e := by
  have h6' : (((s.pool et).current : ℤ)) ≤ 255 := by exact_mod_cast h6
  have hlt : spec_cost s.damage_track el e < 256 := by linarith
  have hpts : ((points_to_spend s.damage_track el e : ℕ) : ℤ) =
      spec_cost s.damage_track el e :=
    points_to_spend_of_nonneg s.damage_track el e h4 hlt
  have hlt2 : points_to_spend s.damage_track el e < (s.pool et).current := by
    have hz : ((points_to_spend s.damage_track el e : ℕ) : ℤ) <
        (((s.pool et).current : ℤ)) := by rw [hpts]; exact h5
    exact_mod_cast hz
  have hel : ¬ el = 0 := by omega
  have hEq : s.spend_effort et el e =
      (Except.ok (),
        s.setPoolCurrent et
          ((s.pool et).current - points_to_spend s.damage_track el e)) := by
    simp only [CharacterStats.spend_effort, if_neg hel,
      if_neg (Nat.not_lt.mpr h2), if_neg (Nat.not_lt.mpr h3),
      if_neg (Nat.not_le.mpr hlt2)]
  rw [hEq]
  refine ⟨rfl, ?_⟩
  have hsp : ((s.setPoolCurrent et
        ((s.pool et).current -
          points_to_spend s.damage_track el e)).pool et).current =
      (s.pool et).current - points_to_spend s.damage_track el e := by
    cases et <;> simp [CharacterStats.setPoolCurrent, CharacterStats.pool]
  rw [hsp, Nat.cast_sub (le_of_lt hlt2), hpts]

theorem spend_effort_success_nonneg_cost_witness :
    (1 ≤ (1 : ℕ) ∧ 1 ≤ (CharacterStats.new 10 1 5 0 5 0).effort ∧
        1 ≤ ((CharacterStats.new 10 1 5 0 5 0).pool EffortType.Might).edge ∧
        0 ≤ spec_cost (CharacterStats.new 10 1 5 0 5 0).damage_track 1 1 ∧
        spec_cost (CharacterStats.new 10 1 5 0 5 0).damage_track 1 1 <
          (((CharacterStats.new 10 1 5 0 5 0).pool
              EffortType.Might).current : ℤ) ∧
        ((CharacterStats.new 10 1 5 0 5 0).pool
            EffortType.Might).current ≤ 255) ∧
      ((CharacterStats.new 10 1 5 0 5 0).spend_effort
          EffortType.Might 1 1).1 = Except.ok () ∧
      ((((CharacterStats.new 10 1 5 0 5 0).spend_effort
            EffortType.Might 1 1).2.pool EffortType.Might).current : ℤ) =
        ((((CharacterStats.new 10 1 5 0 5 0).pool
            EffortType.Might).current : ℤ)) -
          spec_cost (CharacterStats.new 10 1 5 0 5 0).damage_track 1 1 :=
  ⟨⟨by decide, by decide, by decide, by decide, by decide, by decide⟩,
    spend_effort_success_nonneg_cost (CharacterStats.new 10 1 5 0 5 0)
      EffortType.Might 1 1 (by decide) (by decide) (by decide) (by decide)
      (by decide) (by decide)⟩

/-- C1 counterexample to the claim as stated: with pools `(10, edge 4)`,
effort budget 1 and damage track Hale, the call `spend_effort(Might, 1, 4)`
satisfies every hypothesis of the claim — `effort_level = 1 ≥ 1`, within
the effort budget, `edge_used = 4 ≤ pool.edge = 4`, and cost
`3 + 0 - 4 = -1 < current = 10` — yet it does not succeed: the `u8`
subtraction wraps to 255 and the call fails. -/
theorem spend_effort_success_int_cost_cex :
    (1 ≤ (1 : ℕ) ∧
        1 ≤ (CharacterStats.new 10 4 10 0 10 0).effort ∧
        4 ≤ ((CharacterStats.new 10 4 10 0 10 0).pool EffortType.Might).edge ∧
        spec_cost (CharacterStats.new 10 4 10 0 10 0).damage_track 1 4 <
          (((CharacterStats.new 10 4 10 0 10 0).pool
              EffortType.Might).current : ℤ)) ∧
      ((CharacterStats.new 10 4 10 0 10 0).spend_effort
          EffortType.Might 1 4).1 ≠ Except.ok () := by
  decide

/-- C2: the cost arithmetic of `spend_effort` can underflow on a reachable
path. With pools `(10, edge 4)`, effort budget 1 and damage track Hale, the
call `spend_effort(Might, 1, 4)` passes the zero-effort, effort-budget and
edge guards, so it reaches the `u8` expression `3 + (1 - 1) * 2 - 4`,
whose exact integer value is `-1`: the `u8` subtraction underflows (a
debug build panics here; a release build wraps to 255 and the call then
reports `PoolExhausted` with the nonsensical requested cost 255). -/
theorem spend_effort_reaches_underflowing_cost :
    ((1 : ℕ) ≠ 0 ∧
        ¬ (CharacterStats.new 10 4 10 0 10 0).effort < 1 ∧
        ¬ ((CharacterStats.new 10 4 10 0 10 0).pool
            EffortType.Might).edge < 4) ∧
      spec_cost (CharacterStats.new 10 4 10 0 10 0).damage_track 1 4 = -1 ∧
      points_to_spend (CharacterStats.new 10 4 10 0 10 0).damage_track
          1 4 = 255 ∧
      ((CharacterStats.new 10 4 10 0 10 0).spend_effort
          EffortType.Might 1 4).1 =
        Except.error
          (SpendEffortError.PoolExhausted EffortType.Might 10 255) := by
  decide
